import Mathlib

/-!
Shallow embedding of `src/main.py` (Flask data-insight dashboard).

The program has three operations:
  * `get_real_time_data` (lines 23-36): builds a hardcoded pandas DataFrame
    with columns `metric` and `value`; on any exception in its body it
    returns an empty DataFrame.
  * `plot_to_json` (lines 48-61): raises ValueError on an empty DataFrame,
    otherwise builds a Plotly bar figure and serializes it with
    `json.dumps(fig, cls=plotly.utils.PlotlyJSONEncoder)`; every exception
    in the body is caught and replaced by `json.dumps({})`.
  * the routes `index` (GET /, lines 38-46) and `update_data`
    (POST /update_data, lines 64-72), each wrapping the provider/serializer
    sequence in a try/except that would return status 500.

A decisive detail of the source: the import block (lines 13-18) contains
`import plotly.express as px` and `import plotly.graph_objs as go` but never
binds the bare name `plotly`.  Evaluating `plotly.utils.PlotlyJSONEncoder`
on line 58 therefore raises `NameError` before any serialization happens,
and `plot_to_json` falls into its handler and returns `json.dumps({})` for
every input.  The embedding models Python name resolution for that one
expression through the list of names the import statements actually bind.

Exceptions are modelled by `Except PyError`; a Python function that catches
all its own exceptions is embedded as a total Lean function.
-/

/-- Python exception values, as far as this program distinguishes them. -/
inductive PyError where
  | valueError (msg : String)
  | nameError (msg : String)
  | keyError (msg : String)
deriving DecidableEq, Repr

/-- The message text carried by an exception (used in the 500 bodies). -/
def PyError.msg : PyError → String
  | PyError.valueError m => m
  | PyError.nameError m => m
  | PyError.keyError m => m

/-- A cell of a pandas column: this program only stores strings and ints. -/
inductive PyVal where
  | s (str : String)
  | i (n : Int)
deriving DecidableEq, Repr

/-- Column-oriented pandas DataFrame: ordered (column name, cells) pairs.
`pd.DataFrame(\x7b'metric': [...], 'value': [...]\x7d)` on line 31 yields the
two-column frame `sample_df` below; `pd.DataFrame()` yields `⟨[]⟩`. -/
structure DataFrame where
  columns : List (String × List PyVal)
deriving DecidableEq, Repr

/-- Number of rows: the length of the first column (pandas keeps all
columns the same length; the frames this program builds satisfy that). -/
def DataFrame.nrows (df : DataFrame) : Nat :=
  match df.columns with
  | [] => 0
  | c :: _ => c.2.length

/-- `df.empty` in pandas: true iff either axis has length zero. -/
def DataFrame.empty (df : DataFrame) : Bool :=
  df.columns.isEmpty || df.nrows == 0

/-- Column lookup, `df[name]`. -/
def DataFrame.col (df : DataFrame) (name : String) : Option (List PyVal) :=
  (df.columns.find? (fun c => c.1 == name)).map (fun c => c.2)

/-- The names the import statements and top-level definitions of
`src/main.py` (lines 13-20, 23, 38, 48, 64) bind in the module namespace.
`import plotly.express as px` and `import plotly.graph_objs as go` bind
only `px` and `go`; no statement binds the bare name `plotly`. -/
def module_top_level_names : List String :=
  ["Flask", "render_template", "jsonify", "request",
   "pd", "px", "go", "json", "requests",
   "app", "get_real_time_data", "index", "plot_to_json", "update_data"]

/-- JSON string escaping as done by `json.dumps` for the characters that can
occur in this program (backslash and double quote; the data contains no
control characters or non-ASCII text). -/
def py_json_escape (s : String) : String :=
  String.join (s.toList.map (fun c =>
    if c = '\\' then "\\\\"
    else if c = '"' then "\\\""
    else String.singleton c))

/-- `json.dumps` of a flat Python dict whose values are strings, with the
default separators.  Every dict this program serializes has this shape. -/
def json_dumps_str_fields (fields : List (String × String)) : String :=
  "\x7b" ++ String.intercalate ", "
    (fields.map (fun kv =>
      "\"" ++ py_json_escape kv.1 ++ "\": \"" ++ py_json_escape kv.2 ++ "\""))
  ++ "\x7d"

/-- `json.dumps(\x7b\x7d)`, the empty-object sentinel of line 61. -/
def json_dumps_empty_object : String := json_dumps_str_fields []

/-- The Plotly bar-chart figure built by `px.bar` on line 55: one bar trace
(x values, y values) plus the title in the layout. -/
structure Figure where
  x : List PyVal
  y : List PyVal
  title : String
deriving DecidableEq, Repr

/-- `px.bar(df, x=..., y=..., title=...)`: looks the two columns up in the
DataFrame and builds the figure; a missing column raises ValueError. -/
def px_bar (df : DataFrame) (x y title : String) : Except PyError Figure :=
  match df.col x, df.col y with
  | some xs, some ys => Except.ok (Figure.mk xs ys title)
  | _, _ => Except.error (PyError.valueError "column not found")

/-- JSON encoding of one cell value. -/
def pyval_json : PyVal → String
  | PyVal.s str => "\"" ++ py_json_escape str ++ "\""
  | PyVal.i n => toString n

/-- JSON array of already-encoded elements. -/
def json_list (elems : List String) : String :=
  "[" ++ String.intercalate ", " elems ++ "]"

/-- The Serialized Chart that `PlotlyJSONEncoder` would produce for the
figure: top-level `data` (one bar series) and `layout` (title).  In the
shipped source this encoding is unreachable, see `dumps_fig_plotly_encoder`. -/
def figure_json (fig : Figure) : String :=
  "\x7b\"data\": [\x7b\"type\": \"bar\", \"x\": " ++ json_list (fig.x.map pyval_json)
  ++ ", \"y\": " ++ json_list (fig.y.map pyval_json)
  ++ "\x7d], \"layout\": \x7b\"title\": \x7b\"text\": \""
  ++ py_json_escape fig.title ++ "\"\x7d\x7d\x7d"

/-- Line 58, `json.dumps(fig, cls=plotly.utils.PlotlyJSONEncoder)`:
Python first resolves the name `plotly`; the module never binds it, so the
expression raises NameError (message: name plotly is not defined) before
`json.dumps` runs.  Were `plotly` bound, the call would return the
serialized figure. -/
def dumps_fig_plotly_encoder (fig : Figure) : Except PyError String :=
  if module_top_level_names.contains "plotly" then
    Except.ok (figure_json fig)
  else
    Except.error (PyError.nameError "name plotly is not defined")

/-- The `try` body of `plot_to_json` (lines 50-58): raise ValueError on an
empty frame, otherwise build the bar figure and serialize it. -/
def plot_to_json_try (df : DataFrame) : Except PyError String :=
  if df.empty then
    Except.error (PyError.valueError "DataFrame is empty")
  else
    match px_bar df "metric" "value" "Business KPI Dashboard" with
    | Except.error e => Except.error e
    | Except.ok fig => dumps_fig_plotly_encoder fig

/-- `plot_to_json` (lines 48-61): its `except Exception` handler replaces
any exception from the body by `json.dumps(\x7b\x7d)`. -/
def plot_to_json (df : DataFrame) : String :=
  match plot_to_json_try df with
  | Except.ok s => s
  | Except.error _ => json_dumps_empty_object

/-- The hardcoded table of lines 26-31: columns `metric` and `value`. -/
def sample_df : DataFrame :=
  DataFrame.mk
    [("metric", [PyVal.s "Sales", PyVal.s "Profit", PyVal.s "Customer Satisfaction"]),
     ("value", [PyVal.i 120000, PyVal.i 30000, PyVal.i 85])]

/-- `get_real_time_data` (lines 23-36).  The `try` body builds `sample_df`;
to make the except-branch expressible it is parameterized by the outcome of
that acquisition step, the shipped body being `default_acquire`.  On any
exception the function returns `pd.DataFrame()` (line 36). -/
def get_real_time_data (acquire : Except PyError DataFrame) : DataFrame :=
  match acquire with
  | Except.ok df => df
  | Except.error _ => DataFrame.mk []

/-- The shipped acquisition step: lines 26-31 always succeed with the
hardcoded table. -/
def default_acquire : Except PyError DataFrame := Except.ok sample_df

/-- `render_template('index.html', graphs_json=graphs_json)` (line 44),
abbreviated to the interpolation site of the template: the page embeds the
Serialized Chart at `JSON.parse('\x7b\x7b graphs_json | safe \x7d\x7d')`;
the static HTML around it is elided as no claim depends on it. -/
def render_template_index (graphs_json : String) : String :=
  "var graphs_json = JSON.parse('" ++ graphs_json ++ "');"

/-- The `try` body of `index` (lines 41-44): `get_real_time_data` and
`plot_to_json` catch their own exceptions and are total, and rendering the
shipped template is total, so the body always succeeds. -/
def index_try (acquire : Except PyError DataFrame) : Except PyError String :=
  Except.ok (render_template_index (plot_to_json (get_real_time_data acquire)))

/-- `index`, the GET / handler (lines 38-46): status and body; the handler
returns 500 with a plain-text message if the body raises. -/
def index (acquire : Except PyError DataFrame) : Nat × String :=
  match index_try acquire with
  | Except.ok page => (200, page)
  | Except.error e => (500, "Error loading dashboard: " ++ e.msg)

/-- The `try` body of `update_data` (lines 67-70): fetch, serialize, wrap in
the jsonify envelope with the single key graphs_json.  Both callees are
total (they catch their own exceptions) and jsonify of a dict of strings is
total, so the body always succeeds. -/
def update_data_try (acquire : Except PyError DataFrame) : Except PyError String :=
  Except.ok
    (json_dumps_str_fields
      [("graphs_json", plot_to_json (get_real_time_data acquire))])

/-- `update_data`, the POST /update_data handler (lines 64-72): on an
exception from the body it returns the JSON error envelope with status 500. -/
def update_data (acquire : Except PyError DataFrame) : Nat × String :=
  match update_data_try acquire with
  | Except.ok body => (200, body)
  | Except.error e =>
    (500, json_dumps_str_fields [("error", "Error updating data: " ++ e.msg)])

/-- The Flask app holds no mutable module-level state: no global is assigned
outside the import block, so the server state is trivial. -/
def ServerState : Type := Unit

/-- One dispatch of the POST /update_data route: the handler reads no state
and writes none back. -/
def update_data_route (s : ServerState) (acquire : Except PyError DataFrame) :
    (Nat × String) × ServerState :=
  (update_data acquire, s)

/-- `n` successive dispatches of POST /update_data with the shipped provider,
threading the (trivial) server state; returns the list of responses. -/
def run_update_n : Nat → ServerState → List (Nat × String)
  | 0, _ => []
  | Nat.succ n, s =>
    (update_data_route s default_acquire).1 ::
      run_update_n n (update_data_route s default_acquire).2

/-! ## Helper lemmas shared by several claims -/

/-- Every run of the body of `plot_to_json` raises: an empty frame raises
ValueError at the explicit check, a frame missing a column raises inside
`px.bar`, and any other frame reaches line 58 where the unbound name
`plotly` raises NameError. -/
theorem plot_to_json_try_always_error (df : DataFrame) :
    ∃ e : PyError, plot_to_json_try df = Except.error e := by
  unfold plot_to_json_try
  by_cases h : df.empty = true
  · exact ⟨PyError.valueError "DataFrame is empty", by rw [if_pos h]⟩
  · rw [if_neg h]
    cases hpx : px_bar df "metric" "value" "Business KPI Dashboard" with
    | error e => exact ⟨e, rfl⟩
    | ok fig => exact ⟨PyError.nameError "name plotly is not defined", rfl⟩

/-- The except-handler therefore makes `plot_to_json` constantly the
empty-object sentinel. -/
theorem plot_to_json_const (df : DataFrame) :
    plot_to_json df = json_dumps_empty_object := by
  obtain ⟨e, he⟩ := plot_to_json_try_always_error df
  unfold plot_to_json
  rw [he]

/-! ## Claims -/

/-- Claim C1 (refuted by evaluation; code bug): for the valid non-empty
sample Metric Table the Chart Serializer does NOT return a chart carrying
the table's names and values — it returns the empty-object sentinel,
because line 58 references the unbound name `plotly`, the NameError is
caught by the handler, and `json.dumps` of the empty dict is returned.  The
second conjunct shows the output differs from the serialized chart the
claim describes. -/
theorem claim_C1_eval_at_failing_input :
    plot_to_json sample_df = json_dumps_empty_object ∧
    plot_to_json sample_df ≠
      figure_json
        (Figure.mk
          [PyVal.s "Sales", PyVal.s "Profit", PyVal.s "Customer Satisfaction"]
          [PyVal.i 120000, PyVal.i 30000, PyVal.i 85]
          "Business KPI Dashboard") := by
  constructor
  · rfl
  · decide

/-- Claim C2 (refuted by evaluation; code bug): the POST /update_data
handler does return status 200 with a body containing the key
`graphs_json`, but the payload under that key is the empty-object sentinel,
not a chart carrying Sales 120000, Profit 30000, Customer Satisfaction 85. -/
theorem claim_C2_eval_at_failing_input :
    update_data default_acquire =
      (200, json_dumps_str_fields [("graphs_json", json_dumps_empty_object)]) := by
  rfl

/-- Claim C3 (confirmed): for every empty Metric Table the Chart Serializer
returns the empty-object sentinel and does not raise (the body raises the
ValueError of line 52, which the handler of lines 59-61 converts into the
sentinel; the returned value is an ordinary string). -/
theorem claim_C3_empty_table_sentinel (df : DataFrame) (h : df.empty = true) :
    plot_to_json df = json_dumps_empty_object ∧
    plot_to_json_try df = Except.error (PyError.valueError "DataFrame is empty") := by
  have htry : plot_to_json_try df =
      Except.error (PyError.valueError "DataFrame is empty") := by
    unfold plot_to_json_try
    rw [if_pos h]
  refine ⟨?_, htry⟩
  unfold plot_to_json
  rw [htry]

/-- Witness for C3 at the concrete empty frame `pd.DataFrame()`. -/
theorem claim_C3_witness :
    plot_to_json (DataFrame.mk []) = json_dumps_empty_object ∧
    plot_to_json_try (DataFrame.mk []) =
      Except.error (PyError.valueError "DataFrame is empty") :=
  claim_C3_empty_table_sentinel (DataFrame.mk []) (by decide)

/-- Claim C4 (refuted by evaluation; code bug): under the default Metric
Provider GET / does return status 200, but the embedded Serialized Chart is
the empty-object sentinel — it has no `data` array with one series of 3
points, because the serialization on line 58 raised NameError on the
unbound name `plotly` and was replaced by the sentinel. -/
theorem claim_C4_eval_at_failing_input :
    index default_acquire = (200, render_template_index json_dumps_empty_object) ∧
    render_template_index json_dumps_empty_object ≠
      render_template_index
        (figure_json
          (Figure.mk
            [PyVal.s "Sales", PyVal.s "Profit", PyVal.s "Customer Satisfaction"]
            [PyVal.i 120000, PyVal.i 30000, PyVal.i 85]
            "Business KPI Dashboard")) := by
  constructor
  · rfl
  · decide

/-- Claim C5 (confirmed): if the Metric Provider's acquisition step fails
with any exception, GET / still returns status 200 with the empty-object
chart embedded in the page, not a 500 response. -/
theorem claim_C5_acquisition_failure_still_200 (e : PyError) :
    index (Except.error e) = (200, render_template_index json_dumps_empty_object) := by
  unfold index index_try
  rw [plot_to_json_const]

/-- Claim C6 (confirmed): the Metric Provider always returns a Metric Table
(it is a total function into `DataFrame`), and when the acquisition step
fails with any exception it returns the empty table `pd.DataFrame()` rather
than propagating the failure. -/
theorem claim_C6_provider_empty_on_failure (e : PyError) :
    get_real_time_data (Except.error e) = DataFrame.mk [] ∧
    (get_real_time_data (Except.error e)).empty = true :=
  ⟨rfl, rfl⟩

/-- Claim C7 (confirmed): the server holds no mutable state, so any number
of successive POST /update_data dispatches with the shipped deterministic
provider yields the identical response — byte-for-byte equal `graphs_json`
payloads — every time. -/
theorem claim_C7_update_data_idempotent (n : Nat) (s : ServerState) :
    run_update_n n s = List.replicate n (update_data default_acquire) := by
  induction n with
  | zero => rfl
  | succ n ih =>
    simp only [run_update_n, update_data_route, List.replicate_succ]
    rw [ih]

/-- Claim C8 (confirmed): every Metric Table — in particular any table that
makes the serializer's body raise internally — produces exactly the output
of the empty table: the no-data case and the error case are
indistinguishable in the Chart Serializer's output. -/
theorem claim_C8_empty_and_error_indistinguishable (df : DataFrame) :
    plot_to_json df = plot_to_json (DataFrame.mk []) := by
  rw [plot_to_json_const df, plot_to_json_const (DataFrame.mk [])]

/-- Claim C9 (confirmed): for every input frame `plot_to_json` returns a
string (it is total) equal to the serialized empty object, and its body
always raises some exception that the handler catches — for the shipped
non-empty sample table, specifically the name-resolution failure on the
serialization call itself. -/
theorem claim_C9_total_all_exceptions_caught (df : DataFrame) :
    plot_to_json df = json_dumps_empty_object ∧
    (∃ e : PyError, plot_to_json_try df = Except.error e) ∧
    plot_to_json_try sample_df =
      Except.error (PyError.nameError "name plotly is not defined") :=
  ⟨plot_to_json_const df, plot_to_json_try_always_error df, rfl⟩

/-- Claim C10 (confirmed): the 500 branch of POST /update_data is
unreachable — for every acquisition outcome the body succeeds, and the
handler returns status 200 with a body holding the `graphs_json` field, so
a client can never observe the JSON error envelope. -/
theorem claim_C10_error_branch_unreachable (acquire : Except PyError DataFrame) :
    update_data acquire =
      (200,
        json_dumps_str_fields
          [("graphs_json", plot_to_json (get_real_time_data acquire))]) ∧
    update_data_try acquire =
      Except.ok
        (json_dumps_str_fields
          [("graphs_json", plot_to_json (get_real_time_data acquire))]) :=
  ⟨rfl, rfl⟩
